import Mathlib

/-!
Verification development for the AzureAIAllowList connectivity-analysis
pipeline.  The Lean definitions below are shallow embeddings of the Python
source under `src/`:

* `src/connectivity/resource_discovery.py`  — `ConnectedResource`,
  `get_security_score`, `ResourceDiscovery._add_resource`
* `src/connectivity/network_analyzer.py`    — `NetworkConfiguration`,
  `NetworkAnalyzer._analyze_network_type`, `_assess_security_level`
* `src/connectivity/connectivity_analyzer.py` — `ConnectivityAnalyzer.analyze`
* `src/connectivity/comparison_analyzer.py` — `ComparisonAnalyzer._get_recommendation`,
  `_compare_network_config`
* `src/connectivity/vnet_analyzer.py`       — `VNetAnalyzer._analyze_nsg_rules`
* `src/utils/azure_cli_helper.py`           — `AzureCliHelper.run_az_command`

Python `dict`/JSON payloads are modelled by the inductive `JVal`
(Python `None` is `JVal.null`); dictionaries are association lists in
insertion order, exactly how CPython dicts behave.  Wall-clock fields
(`timestamp`, step durations) are omitted: no claim mentions them.
-/

set_option maxHeartbeats 1000000

/-- JSON-like runtime value, the shape of every payload the Python code
threads around (`Dict[str, Any]` parsed from the CLI's JSON output).
`null` doubles as Python `None`. -/
inductive JVal where
  | null : JVal
  | bool (b : Bool) : JVal
  | num (n : Int) : JVal
  | str (s : String) : JVal
  | arr (xs : List JVal) : JVal
  | obj (kvs : List (String × JVal)) : JVal
  deriving Repr, Inhabited

/-- Python truthiness of a value (`if x:`): `None`, `False`, `0`, `""`,
`[]`, and the empty dict are falsy. -/
def JVal.truthy : JVal → Bool
  | .null => false
  | .bool b => b
  | .num n => n != 0
  | .str s => !(s = "")
  | .arr xs => !xs.isEmpty
  | .obj kvs => !kvs.isEmpty

mutual

/-- Python `==` between two runtime values (structural equality; the
payloads compared in this development are JSON values of matching type,
where CPython `==` coincides with structural equality). -/
def jEq : JVal → JVal → Bool
  | .null, .null => true
  | .bool a, .bool b => a == b
  | .num a, .num b => a == b
  | .str a, .str b => a == b
  | .arr xs, .arr ys => jEqArr xs ys
  | .obj xs, .obj ys => jEqObj xs ys
  | _, _ => false

/-- Elementwise Python `==` on lists. -/
def jEqArr : List JVal → List JVal → Bool
  | [], [] => true
  | x :: xs, y :: ys => jEq x y && jEqArr xs ys
  | _, _ => false

/-- Entrywise Python `==` on dict entry lists. -/
def jEqObj : List (String × JVal) → List (String × JVal) → Bool
  | [], [] => true
  | (k, v) :: xs, (k', v') :: ys => k == k' && jEq v v' && jEqObj xs ys
  | _, _ => false

end

/-- Python `x == s` for a string literal `s`: true exactly when `x` is
that string (any other runtime type compares unequal). -/
def JVal.eqStr (v : JVal) (s : String) : Bool :=
  match v with
  | .str t => t = s
  | _ => false

/-- Python `d.get(k)` on an insertion-ordered dict, returning `None`
(modelled `JVal.null`) when the key is absent. -/
def dGet (kvs : List (String × JVal)) (k : String) : JVal :=
  match kvs.find? (fun p => p.1 = k) with
  | some p => p.2
  | none => .null

/-- Python `d.get(k, default)` on an insertion-ordered dict. -/
def dGetD (kvs : List (String × JVal)) (k : String) (d : JVal) : JVal :=
  match kvs.find? (fun p => p.1 = k) with
  | some p => p.2
  | none => d

/-- Python `d[k] = v` on an insertion-ordered dict: replace in place when
the key exists, append otherwise. -/
def dSet (kvs : List (String × JVal)) (k : String) (v : JVal) : List (String × JVal) :=
  if kvs.any (fun p => p.1 = k) then
    kvs.map (fun p => if p.1 = k then (k, v) else p)
  else
    kvs ++ [(k, v)]

/-- Python `str.split('/')` for a single-character separator, on the
character list of the string. -/
def splitCharList (c : Char) : List Char → List (List Char)
  | [] => [[]]
  | x :: xs =>
    let rest := splitCharList c xs
    if x = c then [] :: rest
    else
      match rest with
      | [] => [[x]]
      | r :: rs => (x :: r) :: rs

/-- Python `s.split('/')` (resource IDs are slash-separated). -/
def pySplit (s : String) (c : Char) : List String :=
  (splitCharList c s.data).map (fun l => String.mk l)

/- ## `ConnectedResource` and `get_security_score`
(src/connectivity/resource_discovery.py lines 7-34) -/

/-- Dataclass `ConnectedResource` from resource_discovery.py; field
defaults follow the dataclass declaration. -/
structure ConnectedResource where
  resource_id : String
  resource_type : String
  name : String
  resource_group : String
  connection_type : String
  access_method : String
  private_endpoints : List JVal := []
  public_access_enabled : Bool := true
  firewall_rules : List JVal := []
  network_acls : JVal := .obj []
  deriving Repr

/-- `ConnectedResource.get_security_score`: starts at 100, subtracts the
four fixed deductions, and is floored at 0 with `max(0, score)`. -/
def ConnectedResource.get_security_score (r : ConnectedResource) : Int :=
  let score : Int := 100
  let score := if r.public_access_enabled then score - 30 else score
  let score := if r.access_method = "public" then score - 20 else score
  let score := if r.private_endpoints.isEmpty then score - 10 else score
  let score := if r.firewall_rules.isEmpty then score - 10 else score
  max 0 score

/- ## `NetworkConfiguration` and the network-type classifier
(src/connectivity/network_analyzer.py lines 7-18, 79-97, 286-296) -/

/-- Dataclass `NetworkConfiguration` from network_analyzer.py.  The
`isolation_mode : Optional[str]` field stores the raw result of
`managed_network.get('isolation_mode')`, so it is modelled as a `JVal`
with `null` for Python `None`. -/
structure NetworkConfiguration where
  isolation_mode : JVal := .null
  network_type : String := "unknown"
  public_network_access : Bool := true
  private_endpoints : List JVal := []
  service_endpoints : List JVal := []
  outbound_rules : List JVal := []
  virtual_network : JVal := .null
  subnets : List JVal := []
  firewall_rules : List JVal := []
  deriving Repr

/-- Workspace descriptor as consumed by `_analyze_network_type`: the
parsed JSON dict returned by `az ml workspace show`.  The three accessed
entries are made explicit; `managed_network` holds the entries of the
managed-network block (`workspace_info.get('managed_network', {})`, so
`[]` covers both an absent key and an empty block), and
`public_network_access` holds the raw value with the Python default
`'Enabled'` for an absent key. -/
structure WorkspaceDescriptor where
  managed_network : List (String × JVal) := []
  private_endpoint_connections : List JVal := []
  public_network_access : JVal := .str "Enabled"

/-- `NetworkAnalyzer._analyze_network_type`: mutates the analyzer's
`network_config` in place; modelled as a state-passing function on the
configuration. -/
def analyze_network_type (workspace_info : WorkspaceDescriptor)
    (cfg : NetworkConfiguration) : NetworkConfiguration :=
  let managed_network := workspace_info.managed_network
  let cfg :=
    if !managed_network.isEmpty then
      { cfg with network_type := "managed",
                 isolation_mode := dGet managed_network "isolation_mode" }
    else if !workspace_info.private_endpoint_connections.isEmpty then
      { cfg with network_type := "customer" }
    else
      { cfg with network_type := "none" }
  { cfg with public_network_access :=
      workspace_info.public_network_access.eqStr "Enabled" }

/-- Composition matching `NetworkAnalyzer.__init__` (fresh
`NetworkConfiguration()`) followed by `_analyze_network_type`, projected
to the `(network_type, isolation_mode)` pair of claim C2. -/
def classify_network (workspace_info : WorkspaceDescriptor) : String × JVal :=
  let cfg := analyze_network_type workspace_info {}
  (cfg.network_type, cfg.isolation_mode)

/-- `NetworkAnalyzer._assess_security_level`: the four security tiers. -/
def assess_security_level (cfg : NetworkConfiguration) : String :=
  if !cfg.public_network_access then
    if cfg.isolation_mode.eqStr "allow_only_approved_outbound" then
      "High - Private with approved outbound only"
    else if cfg.isolation_mode.eqStr "allow_internet_outbound" then
      "Medium - Private with internet outbound"
    else
      "Medium - Private access only"
  else
    "Low - Public access enabled"

/-- Python `s.startswith(p)`, on the character lists of the strings
(used only to state the "starts with High" part of claim C8). -/
def strBeginsWith (s p : String) : Bool :=
  decide (s.data.take p.data.length = p.data)

/- ## `ResourceDiscovery._add_resource`
(src/connectivity/resource_discovery.py lines 250-268) -/

/-- `ResourceDiscovery._add_resource`: splits the resource ID on `/`;
only IDs with at least 9 parts produce a `ConnectedResource`, and an
already-present `resource_id` makes the call a no-op.  `self_rg` is the
analyzer's own `self.resource_group` fallback. -/
def add_resource (connected_resources : List ConnectedResource) (self_rg : String)
    (resource_id resource_type connection_type : String) : List ConnectedResource :=
  let parts := pySplit resource_id '/'
  if parts.length ≥ 9 then
    let resource : ConnectedResource :=
      { resource_id := resource_id
        resource_type := resource_type
        name := parts.getLastD ""
        resource_group := parts.getD 4 self_rg
        connection_type := connection_type
        access_method := "unknown" }
    if connected_resources.any (fun r => r.resource_id == resource_id) then
      connected_resources
    else
      connected_resources ++ [resource]
  else
    connected_resources

/-- Number of entries carrying a given `resource_id`. -/
def countById (rs : List ConnectedResource) (resource_id : String) : Nat :=
  (rs.filter (fun r => r.resource_id == resource_id)).length

/-- One `_add_resource` call per element of `calls` (each call is
`(resource_id, resource_type, connection_type)`), starting from `rs`,
with a fixed analyzer resource group. -/
def add_resources (rs : List ConnectedResource) (self_rg : String)
    (calls : List (String × String × String)) : List ConnectedResource :=
  calls.foldl (fun acc c => add_resource acc self_rg c.1 c.2.1 c.2.2) rs

/- ## `ComparisonAnalyzer._get_recommendation`
(src/connectivity/comparison_analyzer.py lines 18-26, 290-304) -/

/-- Dataclass `ConnectivityDifference` from comparison_analyzer.py.  The
`Any`-typed value fields are runtime values. -/
structure ConnectivityDifference where
  category : String
  workspace1_value : JVal
  workspace2_value : JVal
  difference_type : String
  severity : String
  description : String
  deriving Repr

/-- `ComparisonAnalyzer._get_recommendation`: first-match-wins rule over
the severity counts of the difference list. -/
def get_recommendation (differences : List ConnectivityDifference) : String :=
  let high_count := (differences.filter (fun d => d.severity == "high")).length
  let medium_count := (differences.filter (fun d => d.severity == "medium")).length
  if high_count > 0 then
    "CRITICAL: High-severity differences found that may impact connectivity"
  else if medium_count > 3 then
    "WARNING: Multiple medium-severity differences found"
  else if differences.length > 10 then
    "INFO: Many configuration differences found"
  else if differences.length == 0 then
    "SUCCESS: Workspaces have similar connectivity configurations"
  else
    "INFO: Minor configuration differences found"

/- ## `VNetAnalyzer._analyze_nsg_rules`
(src/connectivity/vnet_analyzer.py lines 257-298) -/

/-- Python `s.lower()` on a string, via the character list (ASCII
lowercasing, which covers the CLI's rule fields). -/
def pyLowerString (s : String) : String :=
  String.mk (s.data.map Char.toLower)

/-- Python `x.lower()`: defined for strings only; any other runtime value
raises `AttributeError`, modelled as `none`. -/
def pyLower : JVal → Option String
  | .str s => some (pyLowerString s)
  | _ => none

/-- Accumulator dict built by `_analyze_nsg_rules` (`analysis` in the
source); the two lists hold the appended entry dicts / port values. -/
structure NsgRuleAnalysis where
  total_rules : Nat
  allow_rules : Nat := 0
  deny_rules : Nat := 0
  inbound_rules : Nat := 0
  outbound_rules : Nat := 0
  high_risk_rules : List JVal := []
  open_ports : List JVal := []
  deriving Repr

/-- Entry appended to `high_risk_rules` for a rule flagged high-risk:
name, the fixed risk label, and the rule's destination port range. -/
def highRiskEntry (rule : List (String × JVal)) : JVal :=
  .obj [("name", dGet rule "name"),
        ("risk", .str "Open to Internet"),
        ("port", dGet rule "destinationPortRange")]

/-- Per-rule body of the `_analyze_nsg_rules` loop, after the two
`.lower()` calls produced the strings `access` and `direction`: counter
updates, the high-risk check, and the open-port tracking. -/
def nsg_step (rule : List (String × JVal)) (access direction : String)
    (analysis : NsgRuleAnalysis) : NsgRuleAnalysis :=
  let analysis :=
    if access = "allow" then { analysis with allow_rules := analysis.allow_rules + 1 }
    else if access = "deny" then { analysis with deny_rules := analysis.deny_rules + 1 }
    else analysis
  let analysis :=
    if direction = "inbound" then { analysis with inbound_rules := analysis.inbound_rules + 1 }
    else if direction = "outbound" then { analysis with outbound_rules := analysis.outbound_rules + 1 }
    else analysis
  let src := dGet rule "sourceAddressPrefix"
  if access = "allow" ∧ (src.eqStr "*" ∨ src.eqStr "0.0.0.0/0" ∨ src.eqStr "Internet")
      ∧ direction = "inbound" then
    let analysis :=
      { analysis with high_risk_rules := analysis.high_risk_rules ++ [highRiskEntry rule] }
    let port_range := dGetD rule "destinationPortRange" (.str "*")
    if !(port_range.eqStr "*") then
      { analysis with open_ports := analysis.open_ports ++ [port_range] }
    else analysis
  else analysis

/-- Loop of `_analyze_nsg_rules` over the raw CLI rule dicts.  `none`
models the `AttributeError` raised by `.lower()` when a rule's `access`
or `direction` entry is present but not a string. -/
def analyze_nsg_rules_loop : List (List (String × JVal)) → NsgRuleAnalysis →
    Option NsgRuleAnalysis
  | [], analysis => some analysis
  | rule :: rest, analysis =>
    match pyLower (dGetD rule "access" (.str "")),
          pyLower (dGetD rule "direction" (.str "")) with
    | some access, some direction =>
      analyze_nsg_rules_loop rest (nsg_step rule access direction analysis)
    | _, _ => none

/-- `VNetAnalyzer._analyze_nsg_rules`: `total_rules` is fixed up front,
then one pass over the rules. -/
def analyze_nsg_rules (rules : List (List (String × JVal))) : Option NsgRuleAnalysis :=
  analyze_nsg_rules_loop rules { total_rules := rules.length }

/-- Declarative high-risk condition from claim C9, stated in the claim's
own terms: access lowercases to `allow`, the raw source address entry is
one of the three open sources, and direction lowercases to `inbound`. -/
def isHighRiskRule (rule : List (String × JVal)) : Bool :=
  decide (pyLower (dGetD rule "access" (.str "")) = some "allow"
    ∧ ((dGet rule "sourceAddressPrefix").eqStr "*" = true
        ∨ (dGet rule "sourceAddressPrefix").eqStr "0.0.0.0/0" = true
        ∨ (dGet rule "sourceAddressPrefix").eqStr "Internet" = true)
    ∧ pyLower (dGetD rule "direction" (.str "")) = some "inbound")

/-- Concrete NSG rule set used as witness input for claim C9: one
internet-open inbound allow rule on port 22 and one deny rule. -/
def nsgWitnessRules : List (List (String × JVal)) :=
  [[("name", JVal.str "allow-ssh"), ("access", JVal.str "Allow"),
    ("direction", JVal.str "Inbound"), ("sourceAddressPrefix", JVal.str "*"),
    ("destinationPortRange", JVal.str "22")],
   [("name", JVal.str "deny-all"), ("access", JVal.str "Deny"),
    ("direction", JVal.str "Inbound"), ("sourceAddressPrefix", JVal.str "*"),
    ("destinationPortRange", JVal.str "*")]]

/-- Result of `_analyze_nsg_rules` on `nsgWitnessRules`. -/
def nsgWitnessAnalysis : NsgRuleAnalysis :=
  { total_rules := 2, allow_rules := 1, deny_rules := 1,
    inbound_rules := 2, outbound_rules := 0,
    high_risk_rules := [JVal.obj
      [("name", JVal.str "allow-ssh"), ("risk", JVal.str "Open to Internet"),
       ("port", JVal.str "22")]],
    open_ports := [JVal.str "22"] }

/- ## `AzureCliHelper.run_az_command`
(src/utils/azure_cli_helper.py lines 18-65) -/

/-- Python `s.strip()`: drops leading and trailing whitespace, on the
character list of the string. -/
def pyStrip (s : String) : String :=
  String.mk (((s.data.dropWhile Char.isWhitespace).reverse.dropWhile
    Char.isWhitespace).reverse)

/-- Outcome of the one `subprocess.run` invocation inside
`run_az_command`, plus the behaviour of `json.loads` on its stdout
(`parse s = none` models `json.JSONDecodeError`). -/
structure CliEnv where
  timed_out : Bool
  exit_code : Int
  out_text : String
  parse : String → Option JVal

/-- Python truthiness of the `Optional[str]` argument
(`if subscription_id:`): `None` and the empty string are falsy. -/
def optStrTruthy : Option String → Bool
  | none => false
  | some s => !(s = "")

/-- `AzureCliHelper.run_az_command`: returns the caller's `cmd` list
after the in-place `extend` mutations, paired with the value the
function returns (`none` for every failure path — the function catches
`TimeoutExpired`, `JSONDecodeError` and every other exception and
returns `None`). -/
def run_az_command (env : CliEnv) (cmd : List String)
    (subscription_id : Option String) : List String × Option JVal :=
  let cmd :=
    match subscription_id with
    | some s => if !(s = "") then cmd ++ ["--subscription", s] else cmd
    | none => cmd
  let cmd := if !(cmd.contains "--output") then cmd ++ ["--output", "json"] else cmd
  if env.timed_out then
    (cmd, none)
  else if env.exit_code = 0 ∧ pyStrip env.out_text ≠ "" then
    (cmd, env.parse env.out_text)
  else
    (cmd, none)

/-- Count of occurrences of a string in a command list. -/
def countOcc (cmd : List String) (s : String) : Nat :=
  (cmd.filter (fun x => x == s)).length

/-- Concrete subprocess environment used as witness input for claim C10:
a successful CLI call whose stdout parses to an empty JSON object. -/
def cliWitnessEnv : CliEnv :=
  { timed_out := false, exit_code := 0, out_text := "\x7b\x7d",
    parse := fun _ => some (.obj []) }

/-- Concrete command list used as witness input for claim C10. -/
def cliWitnessCmd : List String :=
  ["az", "ml", "workspace", "show"]

/- ## `ComparisonAnalyzer._compare_network_config`
(src/connectivity/comparison_analyzer.py lines 162-201) -/

/-- Python `x.get(k, default)` on an arbitrary runtime value: defined for
dicts only; any other receiver raises `AttributeError`, modelled as
`none`. -/
def pyGet (v : JVal) (k : String) (d : JVal) : Option JVal :=
  match v with
  | .obj kvs => some (dGetD kvs k d)
  | _ => none

/-- Python `len(x)`: defined for sequences and dicts; numbers, booleans
and `None` raise `TypeError`, modelled as `none`. -/
def pyLen : JVal → Option Nat
  | .arr xs => some xs.length
  | .obj kvs => some kvs.length
  | .str s => some s.length
  | _ => none

/-- `ComparisonAnalyzer._compare_network_config` over the two analysis
payloads: reads `network_config.vnet_integration.enabled` and
`network_config.private_endpoints` from each side and emits a
high-severity VNet-integration difference and/or a medium-severity
private-endpoint-count difference.  `none` models an uncaught
`AttributeError`/`TypeError` from the dict accesses.  The description
strings follow the source f-strings; where the source interpolates an
arbitrary runtime value (the two `enabled` flags) the interpolation is
elided, as no claim depends on description text. -/
def compare_network_config (analysis1 analysis2 : JVal) :
    Option (List ConnectivityDifference) := do
  let nc1 ← pyGet analysis1 "network_config" (.obj [])
  let nc2 ← pyGet analysis2 "network_config" (.obj [])
  let vnet1 ← pyGet nc1 "vnet_integration" (.obj [])
  let vnet2 ← pyGet nc2 "vnet_integration" (.obj [])
  let vnet1_enabled ← pyGet vnet1 "enabled" (.bool false)
  let vnet2_enabled ← pyGet vnet2 "enabled" (.bool false)
  let differences :=
    if !(jEq vnet1_enabled vnet2_enabled) then
      [({ category := "VNet Integration"
          workspace1_value := vnet1_enabled
          workspace2_value := vnet2_enabled
          difference_type := "changed"
          severity := "high"
          description := "VNet integration differs" } : ConnectivityDifference)]
    else []
  let pe1 ← pyGet nc1 "private_endpoints" (.arr [])
  let pe2 ← pyGet nc2 "private_endpoints" (.arr [])
  let pe1_count ← pyLen pe1
  let pe2_count ← pyLen pe2
  let differences :=
    if pe1_count ≠ pe2_count then
      differences ++
      [({ category := "Private Endpoints"
          workspace1_value := .num pe1_count
          workspace2_value := .num pe2_count
          difference_type := "changed"
          severity := "medium"
          description := "Private endpoint count differs: " ++ toString pe1_count
            ++ " vs " ++ toString pe2_count } : ConnectivityDifference)]
    else differences
  pure differences

/- ## `ConnectivityAnalyzer.analyze` — the six-step orchestrator
(src/connectivity/connectivity_analyzer.py lines 21-163, with the
progress tracker from progress_tracker.py; wall-clock fields of the
tracker are omitted) -/

/-- Dataclass `AnalysisResult` from base_analyzer.py (the `timestamp`
field is wall-clock and omitted). -/
structure AnalysisResult where
  success : Bool
  message : String
  data : Option JVal := none
  error : Option String := none
  deriving Repr

/-- Python value stored when an `Optional` payload is written into a
dict: `None` becomes `null`. -/
def optJ (o : Option JVal) : JVal := o.getD .null

/-- One record of `ProgressTracker.step_details` (start/end times and
duration omitted). -/
structure StepRec where
  step : Nat
  name : String
  description : String
  status : String := "in_progress"
  message : String := ""
  deriving Repr

/-- `ProgressTracker.start_step`: appends an in-progress record numbered
by the incremented step counter. -/
def start_step (steps : List StepRec) (name description : String) : List StepRec :=
  steps ++ [{ step := steps.length + 1, name := name, description := description }]

/-- `ProgressTracker.complete_step`: updates the most recent record's
status and message (no-op on an empty trace). -/
def complete_step (steps : List StepRec) (success : Bool) (message : String) :
    List StepRec :=
  match steps.getLast? with
  | none => steps
  | some last =>
    steps.dropLast ++
      [{ last with status := if success then "success" else "failed", message := message }]

/-- `ProgressTracker.get_summary` (minus the wall-clock
`total_duration`; `step_details` keep their non-temporal fields). -/
def tracker_summary (total_steps : Nat) (steps : List StepRec) : JVal :=
  .obj [("total_steps", .num total_steps),
        ("completed_steps", .num steps.length),
        ("successful_steps", .num (steps.filter (fun s => s.status == "success")).length),
        ("failed_steps", .num (steps.filter (fun s => s.status == "failed")).length),
        ("step_details", .arr (steps.map (fun s =>
          .obj [("step", .num s.step), ("name", .str s.name),
                ("description", .str s.description), ("status", .str s.status),
                ("message", .str s.message)])))]

/-- The orchestrator's `self.results` dict.  Each field is `none` while
its key has not been assigned; assignment order in the source is
workspace, network, connected_resources, report_location, which fixes
the dict's insertion order. -/
structure OrchResults where
  workspace : Option JVal := none
  network : Option JVal := none
  connected_resources : Option JVal := none
  report_location : Option String := none
  deriving Repr

/-- Rendering of `self.results` as the dict embedded in the final
envelope, in insertion order. -/
def OrchResults.toJVal (r : OrchResults) : JVal :=
  .obj ((match r.workspace with | some v => [("workspace", v)] | none => []) ++
        (match r.network with | some v => [("network", v)] | none => []) ++
        (match r.connected_resources with
         | some v => [("connected_resources", v)] | none => []) ++
        (match r.report_location with
         | some f => [("report_location", JVal.str f)] | none => []))

/-- Environment of one `ConnectivityAnalyzer.analyze()` run: the
outcomes of the sub-analyzers and collaborators it invokes.
`report_outcome` is the step-6 report generation: `.ok filename` when
`report_generator.save` succeeds, `.error msg` when it raises. -/
structure OrchEnv where
  hub_type : String
  workspace_name : String
  prereq_result : AnalysisResult
  workspace_result : AnalysisResult
  network_result : AnalysisResult
  vnet_info : JVal
  resource_result : AnalysisResult
  report_outcome : Except String String

/-- Observable outcome of one orchestrator run: the returned envelope,
the final `self.results`, the progress trace, and the ordered list of
sub-component invocations (used to state the step-skipping claims). -/
structure OrchRun where
  result : AnalysisResult
  results : OrchResults
  steps : List StepRec
  calls : List String

/-- Steps 4-6 of `ConnectivityAnalyzer.analyze` (resource discovery,
security placeholder, report generation, final success envelope);
factored out because step 3 reaches here from three branches. -/
def orch_steps_4_to_6 (env : OrchEnv) (steps : List StepRec) (calls : List String)
    (results : OrchResults) : OrchRun :=
  let steps := start_step steps "Discovering connected resources"
    "Finding all resources connected to the workspace"
  let calls := calls ++ ["resource_discovery.analyze"]
  let stepsResults :=
    if !env.resource_result.success then
      (complete_step steps false env.resource_result.message,
       { results with connected_resources := some (.obj
           [("error", .str env.resource_result.message),
            ("partial_data", optJ env.resource_result.data)]) })
    else
      (complete_step steps true "",
       { results with connected_resources := some (optJ env.resource_result.data) })
  let steps := stepsResults.1
  let results := stepsResults.2
  let steps := start_step steps "Analyzing security settings"
    "Performing comprehensive security analysis"
  let steps := complete_step steps true "Security analysis completed"
  let steps := start_step steps "Generating report"
    "Creating comprehensive connectivity analysis report"
  let calls := calls ++ ["report_generator.save"]
  let stepsResults :=
    match env.report_outcome with
    | .ok filename =>
      (complete_step steps true ("Report saved to " ++ filename),
       { results with report_location := some filename })
    | .error e =>
      (complete_step steps false ("Report generation failed: " ++ e), results)
  let steps := stepsResults.1
  let results := stepsResults.2
  { result :=
      { success := true
        message := "Connectivity analysis completed successfully"
        data := some (.obj
          [("hub_type", .str env.hub_type),
           ("workspace_name", .str env.workspace_name),
           ("results", results.toJVal),
           ("summary", tracker_summary 6 steps)]) }
    results := results
    steps := steps
    calls := calls }

/-- `ConnectivityAnalyzer.analyze`: steps 1-3 with the fatal/non-fatal
branching, then steps 4-6.  The branch on `network_result.data` models
`network_result.data.get('network_type')`: a non-dict payload raises an
`AttributeError` that the outer `except` converts into the generic
failure envelope. -/
def connectivity_analyze (env : OrchEnv) : OrchRun :=
  let steps := start_step [] "Validating prerequisites" "Checking Azure CLI and permissions"
  let calls := ["validate_prerequisites"]
  if !env.prereq_result.success then
    { result := env.prereq_result, results := {},
      steps := complete_step steps false env.prereq_result.message, calls := calls }
  else
  let steps := complete_step steps true ""
  let steps := start_step steps "Connecting to workspace/hub"
    ("Connecting to " ++ env.workspace_name)
  let calls := calls ++ ["connect_to_workspace"]
  if !env.workspace_result.success then
    { result := env.workspace_result, results := {},
      steps := complete_step steps false env.workspace_result.message, calls := calls }
  else
  let steps := complete_step steps true ""
  let results : OrchResults := { workspace := some (optJ env.workspace_result.data) }
  let steps := start_step steps "Analyzing network configuration"
    "Discovering network isolation and connectivity settings"
  let calls := calls ++ ["network_analyzer.analyze"]
  if !env.network_result.success then
    let steps := complete_step steps false env.network_result.message
    let results := { results with network := some (.obj
        [("error", .str env.network_result.message),
         ("partial_data", optJ env.network_result.data)]) }
    orch_steps_4_to_6 env steps calls results
  else
    let steps := complete_step steps true ""
    match env.network_result.data with
    | some (JVal.obj kvs) =>
      if (dGet kvs "network_type").eqStr "customer" then
        let calls := calls ++ ["vnet_analyzer.analyze_workspace_vnet"]
        let results :=
          { results with network := some (.obj (dSet kvs "vnet_details" env.vnet_info)) }
        orch_steps_4_to_6 env steps calls results
      else
        let results := { results with network := some (.obj kvs) }
        orch_steps_4_to_6 env steps calls results
    | d =>
      { result :=
          { success := false
            message := "Analysis failed due to unexpected error"
            error := some "AttributeError" }
        results := { results with network := some (optJ d) }
        steps := steps
        calls := calls }

/-- Witness environment for claim C5: prerequisite validation fails (the
envelope produced by `_validate_prerequisites` when the Azure CLI is
missing); the later stages are configured but must never run. -/
def orchEnvPrereqFail : OrchEnv :=
  { hub_type := "azure-ml"
    workspace_name := "ws"
    prereq_result :=
      { success := false
        message := "Azure CLI not found or ML extension not installed"
        error := some "Please install Azure CLI and run the ml extension add command" }
    workspace_result := { success := true, message := "Successfully connected to workspace",
                          data := some (.obj [("name", .str "ws")]) }
    network_result := { success := true, message := "Network analysis completed successfully",
                        data := some (.obj [("network_type", .str "none")]) }
    vnet_info := .null
    resource_result := { success := true, message := "Resource discovery completed successfully",
                         data := some (.obj [("total_resources", .num 0)]) }
    report_outcome := .ok "connectivity-reports/ws_connectivity_20260101_000000.md" }

/-- Witness environment for claim C4: prerequisites, workspace
connection and resource discovery succeed while network analysis
fails. -/
def orchEnvNetFail : OrchEnv :=
  { hub_type := "azure-ml"
    workspace_name := "ws"
    prereq_result := { success := true, message := "Prerequisites validated" }
    workspace_result := { success := true, message := "Successfully connected to workspace",
                          data := some (.obj [("name", .str "ws")]) }
    network_result := { success := false
                        message := "Network analysis failed: boom"
                        error := some "boom" }
    vnet_info := .null
    resource_result := { success := true, message := "Resource discovery completed successfully",
                         data := some (.obj [("total_resources", .num 2)]) }
    report_outcome := .ok "connectivity-reports/ws_connectivity_20260101_000000.md" }

/-- Network payload of `_format_network_data` for a customer-managed
workspace with three private endpoints (claim C7, workspace 1): keys and
nesting mirror network_analyzer.py lines 227-244. -/
def netDataThreePE : JVal :=
  .obj [("network_type", .str "customer"),
        ("isolation_mode", .null),
        ("public_network_access", .bool true),
        ("private_endpoints", .obj
          [("count", .num 3),
           ("endpoints", .arr
             [.obj [("name", .str "pe1")], .obj [("name", .str "pe2")],
              .obj [("name", .str "pe3")]])]),
        ("outbound_rules", .obj
          [("count", .num 0),
           ("rules", .obj [("fqdn", .arr []), ("service_tag", .arr []),
                           ("private_endpoint", .arr []), ("required", .arr [])])]),
        ("virtual_network", .null),
        ("subnets", .arr []),
        ("summary", .obj
          [("configuration_type", .str "customer"),
           ("security_level", .str "Low - Public access enabled"),
           ("connectivity", .obj
             [("inbound", .obj [("public_access", .bool true),
                                ("private_endpoints", .num 3),
                                ("service_endpoints", .num 0)]),
              ("outbound", .obj [])]),
           ("key_findings", .arr [.str "Public network access is enabled"]),
           ("recommendations", .arr
             [.str "Consider disabling public network access for enhanced security"])])]

/-- Network payload of `_format_network_data` for a workspace with no
private endpoints (claim C7, workspace 2). -/
def netDataZeroPE : JVal :=
  .obj [("network_type", .str "none"),
        ("isolation_mode", .null),
        ("public_network_access", .bool true),
        ("private_endpoints", .obj [("count", .num 0), ("endpoints", .arr [])]),
        ("outbound_rules", .obj
          [("count", .num 0),
           ("rules", .obj [("fqdn", .arr []), ("service_tag", .arr []),
                           ("private_endpoint", .arr []), ("required", .arr [])])]),
        ("virtual_network", .null),
        ("subnets", .arr []),
        ("summary", .obj
          [("configuration_type", .str "none"),
           ("security_level", .str "Low - Public access enabled"),
           ("connectivity", .obj
             [("inbound", .obj [("public_access", .bool true),
                                ("private_endpoints", .num 0),
                                ("service_endpoints", .num 0)]),
              ("outbound", .obj [])]),
           ("key_findings", .arr [.str "No private endpoints configured"]),
           ("recommendations", .arr
             [.str "Consider adding private endpoints for secure access"])])]

/-- Orchestrator environment whose network stage returns
`netDataThreePE` (claim C7, workspace 1). -/
def orchEnvWs1 : OrchEnv :=
  { hub_type := "azure-ml"
    workspace_name := "ws1"
    prereq_result := { success := true, message := "Prerequisites validated" }
    workspace_result := { success := true, message := "Successfully connected to workspace",
                          data := some (.obj [("name", .str "ws1")]) }
    network_result := { success := true, message := "Network analysis completed successfully",
                        data := some netDataThreePE }
    vnet_info := .obj [("vnets", .arr []), ("subnets", .arr [])]
    resource_result := { success := true, message := "Resource discovery completed successfully",
                         data := some (.obj [("total_resources", .num 4)]) }
    report_outcome := .ok "connectivity-reports/ws1_connectivity_20260101_000000.md" }

/-- Orchestrator environment whose network stage returns
`netDataZeroPE` (claim C7, workspace 2). -/
def orchEnvWs2 : OrchEnv :=
  { hub_type := "azure-ml"
    workspace_name := "ws2"
    prereq_result := { success := true, message := "Prerequisites validated" }
    workspace_result := { success := true, message := "Successfully connected to workspace",
                          data := some (.obj [("name", .str "ws2")]) }
    network_result := { success := true, message := "Network analysis completed successfully",
                        data := some netDataZeroPE }
    vnet_info := .null
    resource_result := { success := true, message := "Resource discovery completed successfully",
                         data := some (.obj [("total_resources", .num 4)]) }
    report_outcome := .ok "connectivity-reports/ws2_connectivity_20260101_000000.md" }

/-- The orchestrator analysis output for workspace 1 (the `data` payload
handed to the comparison engine). -/
def orchOutputWs1 : JVal := optJ (connectivity_analyze orchEnvWs1).result.data

/-- The orchestrator analysis output for workspace 2. -/
def orchOutputWs2 : JVal := optJ (connectivity_analyze orchEnvWs2).result.data

/-- Payload in the shape `_compare_network_config` actually reads
(`network_config.private_endpoints` as a list), with three private
endpoints — this key layout does not occur in any orchestrator
output. -/
def comparerExpectedShape3 : JVal :=
  .obj [("network_config", .obj
    [("vnet_integration", .obj []),
     ("private_endpoints", .arr
       [.obj [("name", .str "pe1")], .obj [("name", .str "pe2")],
        .obj [("name", .str "pe3")]])])]

/-- Same shape with zero private endpoints. -/
def comparerExpectedShape0 : JVal :=
  .obj [("network_config", .obj
    [("vnet_integration", .obj []), ("private_endpoints", .arr [])])]

/- ## Theorems -/

/-- C1: `get_security_score` returns 100 minus 30 if
`public_access_enabled`, minus 20 if `access_method = "public"`, minus
10 if `private_endpoints` is empty, minus 10 if `firewall_rules` is
empty, clamped to `[0, 100]`; hence every resource with public access
enabled scores at most 70, and public access + public method + no
private endpoints + at least one firewall rule scores exactly 40. -/
theorem security_score_formula (r : ConnectedResource) :
    r.get_security_score =
      max 0 (100 - (if r.public_access_enabled then 30 else 0)
               - (if r.access_method = "public" then 20 else 0)
               - (if r.private_endpoints.isEmpty then 10 else 0)
               - (if r.firewall_rules.isEmpty then 10 else 0))
    ∧ 0 ≤ r.get_security_score ∧ r.get_security_score ≤ 100
    ∧ (r.public_access_enabled = true → r.get_security_score ≤ 70)
    ∧ (r.public_access_enabled = true → r.access_method = "public" →
        r.private_endpoints = [] → r.firewall_rules ≠ [] →
        r.get_security_score = 40) := by
  obtain ⟨_, _, _, _, _, am, pe, pub, fw, _⟩ := r
  simp only [ConnectedResource.get_security_score]
  by_cases h1 : pub = true <;> by_cases h2 : am = "public" <;>
    by_cases h3 : pe = [] <;> by_cases h4 : fw = [] <;>
    simp_all [List.isEmpty_iff]

/-- C1 witness: the scenario-C resource (public access on, public access
method, no private endpoints, one firewall rule) scores exactly 40 and
is within the ≤ 70 bound for publicly accessible resources. -/
theorem security_score_formula_witness :
    ConnectedResource.get_security_score
      { resource_id := "sid", resource_type := "Microsoft.Storage/storageAccounts",
        name := "wsstorage", resource_group := "rg", connection_type := "default",
        access_method := "public", private_endpoints := [],
        public_access_enabled := true,
        firewall_rules := [JVal.obj [("name", JVal.str "rule1")]] } = 40 ∧
    ConnectedResource.get_security_score
      { resource_id := "sid", resource_type := "Microsoft.Storage/storageAccounts",
        name := "wsstorage", resource_group := "rg", connection_type := "default",
        access_method := "public", private_endpoints := [],
        public_access_enabled := true,
        firewall_rules := [JVal.obj [("name", JVal.str "rule1")]] } ≤ 70 :=
  ⟨(security_score_formula _).2.2.2.2 rfl rfl rfl (List.cons_ne_nil _ _),
   (security_score_formula _).2.2.2.1 rfl⟩

/-- C2: network classification is deterministic, and follows the rule:
non-empty managed-network block ⇒ `managed` with the block's isolation
mode; otherwise non-empty private-endpoint connections ⇒ `customer`;
otherwise `none` (the fresh configuration's isolation mode, Python
`None`, is kept in the latter two cases). -/
theorem network_classification (w w' : WorkspaceDescriptor) :
    (w = w' → classify_network w = classify_network w')
    ∧ (w.managed_network ≠ [] →
        classify_network w = ("managed", dGet w.managed_network "isolation_mode"))
    ∧ (w.managed_network = [] → w.private_endpoint_connections ≠ [] →
        classify_network w = ("customer", .null))
    ∧ (w.managed_network = [] → w.private_endpoint_connections = [] →
        classify_network w = ("none", .null)) := by
  refine ⟨fun h => h ▸ rfl, ?_, ?_, ?_⟩ <;>
    · intros
      simp_all [classify_network, analyze_network_type, List.isEmpty_iff]

/-- C2 witness: the scenario-B descriptor (empty managed-network block,
one private-endpoint connection) classifies as `customer`, and a
one-entry managed block classifies as `managed` with its isolation
mode. -/
theorem network_classification_witness :
    classify_network
      { managed_network := [],
        private_endpoint_connections := [JVal.obj [("id", JVal.str "pe1")]],
        public_network_access := JVal.str "Enabled" } = ("customer", .null) ∧
    classify_network
      { managed_network := [("isolation_mode", JVal.str "allow_internet_outbound")],
        private_endpoint_connections := [],
        public_network_access := JVal.str "Enabled" } =
      ("managed", JVal.str "allow_internet_outbound") :=
  ⟨(network_classification _ ⟨[], [], .null⟩).2.2.1 rfl (List.cons_ne_nil _ _),
   (network_classification _ ⟨[], [], .null⟩).2.1 (List.cons_ne_nil _ _)⟩

/-- Helper: a zero occurrence count makes the duplicate check of
`_add_resource` fail on every entry. -/
theorem countById_eq_zero_any (rs : List ConnectedResource) (resource_id : String)
    (h : countById rs resource_id = 0) :
    rs.any (fun r => r.resource_id == resource_id) = false := by
  simp only [countById, List.length_eq_zero, List.filter_eq_nil_iff] at h
  simp only [List.any_eq_false]
  exact h

/-- Helper: `_add_resource` preserves distinctness of `resource_id`s. -/
theorem add_resource_preserves_distinct (rs : List ConnectedResource)
    (self_rg resource_id ty ct : String)
    (h : rs.Pairwise (fun a b => a.resource_id ≠ b.resource_id)) :
    (add_resource rs self_rg resource_id ty ct).Pairwise
      (fun a b => a.resource_id ≠ b.resource_id) := by
  unfold add_resource
  by_cases h9 : (pySplit resource_id '/').length ≥ 9
  · simp only [h9, if_true]
    by_cases ha : rs.any (fun r => r.resource_id == resource_id) = true
    · simp [ha, h]
    · simp only [ha, if_false, Bool.false_eq_true]
      refine List.pairwise_append.mpr ⟨h, List.pairwise_singleton _ _, ?_⟩
      intro a haa b hb
      simp only [List.mem_singleton] at hb
      subst hb
      simp only [List.any_eq_true, not_exists, not_and] at ha
      have := ha a haa
      simpa using this
  · simp [h9, h]

/-- Helper: any sequence of `_add_resource` calls starting from a list
with distinct ids keeps the ids distinct. -/
theorem add_resources_distinct (self_rg : String)
    (calls : List (String × String × String)) (rs : List ConnectedResource)
    (h : rs.Pairwise (fun a b => a.resource_id ≠ b.resource_id)) :
    (add_resources rs self_rg calls).Pairwise
      (fun a b => a.resource_id ≠ b.resource_id) := by
  induction calls generalizing rs with
  | nil => exact h
  | cons c cs ih =>
    exact ih _ (add_resource_preserves_distinct rs self_rg c.1 c.2.1 c.2.2 h)

/-- C3 counterexample: with a `resource_id` whose slash-split has fewer
than 9 parts (here a bare storage-account name, exactly what
`_discover_default_resources` passes when the workspace descriptor
carries a plain account name), two `_add_resource` calls leave zero
entries with that id, not one. -/
theorem add_resource_twice_counterexample :
    countById
      (add_resource
        (add_resource [] "rg" "workspacestorage" "Microsoft.Storage/storageAccounts" "default")
        "rg" "workspacestorage" "Microsoft.Storage/storageAccounts" "default")
      "workspacestorage" = 0 ∧ (0 : Nat) ≠ 1 :=
  ⟨rfl, by decide⟩

/-- C3 (amended): when the `resource_id` splits into at least 9
slash-separated parts, two `_add_resource` calls with that id (on a list
not yet containing it) leave exactly one entry with that id; ids with
fewer parts are never added at all (the call is a no-op); and after any
sequence of `_add_resource` calls starting from the constructor's empty
list, no two entries share a `resource_id`. -/
theorem add_resource_dedup (rs : List ConnectedResource)
    (self_rg resource_id ty ct : String) :
    ((pySplit resource_id '/').length ≥ 9 → countById rs resource_id = 0 →
      countById
        (add_resource (add_resource rs self_rg resource_id ty ct) self_rg resource_id ty ct)
        resource_id = 1)
    ∧ ((pySplit resource_id '/').length < 9 →
      add_resource rs self_rg resource_id ty ct = rs)
    ∧ (∀ calls : List (String × String × String),
      (add_resources [] self_rg calls).Pairwise
        (fun a b => a.resource_id ≠ b.resource_id)) := by
  refine ⟨?_, ?_, fun calls => add_resources_distinct self_rg calls [] List.Pairwise.nil⟩
  · intro h9 h0
    have hany := countById_eq_zero_any rs resource_id h0
    simp only [countById] at h0 ⊢
    simp only [add_resource, h9, if_true, hany, Bool.false_eq_true, if_false,
      List.any_append, List.any_cons, List.any_nil, Bool.or_false, beq_self_eq_true,
      Bool.or_true, if_true, List.filter_append]
    simp_all [List.length_eq_zero]
  · intro hlt
    simp [add_resource, Nat.not_le.mpr hlt]

/-- C3 witness: a full Azure resource ID (9 slash-separated parts) added
twice from the empty discovery list yields exactly one entry. -/
theorem add_resource_dedup_witness :
    countById
      (add_resource
        (add_resource []
          "rg" "/subscriptions/sub/resourceGroups/rg/providers/Microsoft.Storage/storageAccounts/acct"
          "Microsoft.Storage/storageAccounts" "default")
        "rg" "/subscriptions/sub/resourceGroups/rg/providers/Microsoft.Storage/storageAccounts/acct"
        "Microsoft.Storage/storageAccounts" "default")
      "/subscriptions/sub/resourceGroups/rg/providers/Microsoft.Storage/storageAccounts/acct" = 1 :=
  (add_resource_dedup [] "rg"
    "/subscriptions/sub/resourceGroups/rg/providers/Microsoft.Storage/storageAccounts/acct"
    "Microsoft.Storage/storageAccounts" "default").1 (by decide) rfl

/-- C6: the comparison recommendation is first-match-wins over the
difference list, in the order: any high-severity difference ⇒ CRITICAL;
else more than 3 medium-severity ⇒ WARNING; else more than 10 total ⇒
INFO (many); else zero differences ⇒ SUCCESS; otherwise INFO (minor). -/
theorem recommendation_first_match (ds : List ConnectivityDifference) :
    (0 < (ds.filter (fun d => d.severity == "high")).length →
      get_recommendation ds =
        "CRITICAL: High-severity differences found that may impact connectivity")
    ∧ ((ds.filter (fun d => d.severity == "high")).length = 0 →
       3 < (ds.filter (fun d => d.severity == "medium")).length →
      get_recommendation ds = "WARNING: Multiple medium-severity differences found")
    ∧ ((ds.filter (fun d => d.severity == "high")).length = 0 →
       (ds.filter (fun d => d.severity == "medium")).length ≤ 3 →
       10 < ds.length →
      get_recommendation ds = "INFO: Many configuration differences found")
    ∧ ((ds.filter (fun d => d.severity == "high")).length = 0 →
       (ds.filter (fun d => d.severity == "medium")).length ≤ 3 →
       ds.length ≤ 10 → ds = [] →
      get_recommendation ds =
        "SUCCESS: Workspaces have similar connectivity configurations")
    ∧ ((ds.filter (fun d => d.severity == "high")).length = 0 →
       (ds.filter (fun d => d.severity == "medium")).length ≤ 3 →
       ds.length ≤ 10 → ds ≠ [] →
      get_recommendation ds = "INFO: Minor configuration differences found") := by
  refine ⟨?_, ?_, ?_, ?_, ?_⟩
  · intro h1
    simp only [get_recommendation]
    rw [if_pos h1]
  · intro h1 h2
    simp only [get_recommendation]
    rw [if_neg (by omega), if_pos h2]
  · intro h1 h2 h3
    simp only [get_recommendation]
    rw [if_neg (by omega), if_neg (by omega), if_pos h3]
  · intro h1 h2 h3 h4
    subst h4
    rfl
  · intro h1 h2 h3 h4
    simp only [get_recommendation]
    rw [if_neg (by omega), if_neg (by omega), if_neg (by omega),
      if_neg (by simp [List.length_eq_zero, h4])]

/-- C6 witness: an empty difference list yields the SUCCESS
recommendation, and a single high-severity difference yields the
CRITICAL recommendation. -/
theorem recommendation_first_match_witness :
    get_recommendation [] =
      "SUCCESS: Workspaces have similar connectivity configurations" ∧
    get_recommendation
      [{ category := "Public Network Access", workspace1_value := .str "Enabled",
         workspace2_value := .str "Disabled", difference_type := "changed",
         severity := "high", description := "Public network access differs" }] =
      "CRITICAL: High-severity differences found that may impact connectivity" :=
  ⟨(recommendation_first_match []).2.2.2.1 rfl (by decide) (by decide) rfl,
   (recommendation_first_match _).1 (by decide)⟩

/-- C8: the classifier's security level is one of exactly four tiers
determined by the public-access flag and the isolation mode, and the
scenario-A descriptor (managed block with isolation mode
`allow_only_approved_outbound`, `public_network_access: "Disabled"`)
classifies as `managed` with a security level starting with `High`. -/
theorem security_level_tiers (cfg : NetworkConfiguration)
    (mn : List (String × JVal)) (pe : List JVal) :
    (cfg.public_network_access = false →
        cfg.isolation_mode = .str "allow_only_approved_outbound" →
      assess_security_level cfg = "High - Private with approved outbound only")
    ∧ (cfg.public_network_access = false →
        cfg.isolation_mode = .str "allow_internet_outbound" →
      assess_security_level cfg = "Medium - Private with internet outbound")
    ∧ (cfg.public_network_access = false →
        cfg.isolation_mode.eqStr "allow_only_approved_outbound" = false →
        cfg.isolation_mode.eqStr "allow_internet_outbound" = false →
      assess_security_level cfg = "Medium - Private access only")
    ∧ (cfg.public_network_access = true →
      assess_security_level cfg = "Low - Public access enabled")
    ∧ (dGet mn "isolation_mode" = .str "allow_only_approved_outbound" →
        (analyze_network_type ⟨mn, pe, .str "Disabled"⟩ {}).network_type = "managed"
        ∧ assess_security_level (analyze_network_type ⟨mn, pe, .str "Disabled"⟩ {}) =
            "High - Private with approved outbound only"
        ∧ strBeginsWith
            (assess_security_level (analyze_network_type ⟨mn, pe, .str "Disabled"⟩ {}))
            "High" = true) := by
  refine ⟨?_, ?_, ?_, ?_, ?_⟩
  · intro h1 h2; simp [assess_security_level, h1, h2, JVal.eqStr]
  · intro h1 h2; simp [assess_security_level, h1, h2, JVal.eqStr]
  · intro h1 h2 h3; simp [assess_security_level, h1, h2, h3]
  · intro h1; simp [assess_security_level, h1]
  · intro h
    have hmn : mn ≠ [] := by
      rintro rfl
      simp [dGet] at h
    have hassess : assess_security_level (analyze_network_type ⟨mn, pe, .str "Disabled"⟩ {}) =
        "High - Private with approved outbound only" := by
      simp [analyze_network_type, assess_security_level, hmn, h,
        List.isEmpty_iff, JVal.eqStr]
    refine ⟨?_, hassess, by rw [hassess]; decide⟩
    simp [analyze_network_type, hmn, List.isEmpty_iff]

/-- C8 witness: concrete scenario-A inputs. -/
theorem security_level_tiers_witness :
    (analyze_network_type
      ⟨[("isolation_mode", JVal.str "allow_only_approved_outbound")], [],
        .str "Disabled"⟩ {}).network_type = "managed"
    ∧ assess_security_level
        (analyze_network_type
          ⟨[("isolation_mode", JVal.str "allow_only_approved_outbound")], [],
            .str "Disabled"⟩ {}) = "High - Private with approved outbound only"
    ∧ strBeginsWith
        (assess_security_level
          (analyze_network_type
            ⟨[("isolation_mode", JVal.str "allow_only_approved_outbound")], [],
              .str "Disabled"⟩ {})) "High" = true :=
  (security_level_tiers {} _ []).2.2.2.2 rfl

/-- Helper: one loop step appends to `high_risk_rules` exactly the
entry of the rule when it meets the high-risk condition. -/
theorem nsg_step_high_risk (rule : List (String × JVal)) (access direction : String)
    (a : NsgRuleAnalysis) :
    (nsg_step rule access direction a).high_risk_rules =
      a.high_risk_rules ++
        (if access = "allow"
            ∧ ((dGet rule "sourceAddressPrefix").eqStr "*" = true
                ∨ (dGet rule "sourceAddressPrefix").eqStr "0.0.0.0/0" = true
                ∨ (dGet rule "sourceAddressPrefix").eqStr "Internet" = true)
            ∧ direction = "inbound" then [highRiskEntry rule] else []) := by
  simp only [nsg_step]
  split_ifs <;> simp_all

/-- Helper: the `_analyze_nsg_rules` loop appends to `high_risk_rules`
exactly the entries of the rules satisfying the declarative high-risk
condition, in order. -/
theorem analyze_nsg_rules_loop_high_risk (rules : List (List (String × JVal))) :
    ∀ acc out : NsgRuleAnalysis, analyze_nsg_rules_loop rules acc = some out →
      out.high_risk_rules =
        acc.high_risk_rules ++ (rules.filter isHighRiskRule).map highRiskEntry := by
  induction rules with
  | nil =>
    intro acc out h
    simp only [analyze_nsg_rules_loop, Option.some.injEq] at h
    subst h
    simp
  | cons rule rest ih =>
    intro acc out h
    simp only [analyze_nsg_rules_loop] at h
    rcases hacc : pyLower (dGetD rule "access" (.str "")) with _ | access <;>
      rw [hacc] at h
    · simp at h
    rcases hdir : pyLower (dGetD rule "direction" (.str "")) with _ | direction <;>
      rw [hdir] at h
    · simp at h
    have hout := ih _ _ h
    rw [hout, nsg_step_high_risk, List.filter_cons, List.append_assoc]
    by_cases hcond : access = "allow"
        ∧ ((dGet rule "sourceAddressPrefix").eqStr "*" = true
            ∨ (dGet rule "sourceAddressPrefix").eqStr "0.0.0.0/0" = true
            ∨ (dGet rule "sourceAddressPrefix").eqStr "Internet" = true)
        ∧ direction = "inbound"
    · have hhr : isHighRiskRule rule = true := by
        simp only [isHighRiskRule, hacc, hdir, decide_eq_true_eq]
        exact ⟨by simp [hcond.1], hcond.2.1, by simp [hcond.2.2]⟩
      rw [if_pos hcond, hhr]
      simp
    · have hhr : isHighRiskRule rule = false := by
        simp only [isHighRiskRule, decide_eq_false_iff_not, hacc, hdir]
        intro hc
        exact hcond ⟨by simpa using hc.1, hc.2.1, by simpa using hc.2.2⟩
      rw [if_neg hcond, hhr]
      simp

/-- C9: when `_analyze_nsg_rules` completes, its `high_risk_rules` list
is exactly the image of the rules whose access lowercases to `allow`,
whose direction lowercases to `inbound`, and whose raw source address
prefix entry is one of `*`, `0.0.0.0/0`, `Internet`; and every such rule
is surfaced as an entry carrying its destination port range. -/
theorem nsg_high_risk_rules_characterization
    (rules : List (List (String × JVal))) (analysis : NsgRuleAnalysis)
    (h : analyze_nsg_rules rules = some analysis) :
    analysis.high_risk_rules = (rules.filter isHighRiskRule).map highRiskEntry
    ∧ ∀ rule ∈ rules, isHighRiskRule rule = true →
        JVal.obj [("name", dGet rule "name"), ("risk", .str "Open to Internet"),
                  ("port", dGet rule "destinationPortRange")] ∈ analysis.high_risk_rules := by
  have heq : analysis.high_risk_rules = (rules.filter isHighRiskRule).map highRiskEntry := by
    simp only [analyze_nsg_rules] at h
    simpa using analyze_nsg_rules_loop_high_risk rules _ _ h
  refine ⟨heq, ?_⟩
  intro rule hr hhr
  rw [heq]
  exact List.mem_map.mpr ⟨rule, List.mem_filter.mpr ⟨hr, hhr⟩, rfl⟩

/-- C9 witness: an internet-open inbound allow rule is surfaced with its
port 22, a deny rule is not. -/
theorem nsg_high_risk_rules_witness :
    analyze_nsg_rules nsgWitnessRules = some nsgWitnessAnalysis
    ∧ nsgWitnessAnalysis.high_risk_rules =
        (nsgWitnessRules.filter isHighRiskRule).map highRiskEntry
    ∧ nsgWitnessAnalysis.high_risk_rules =
        [JVal.obj [("name", JVal.str "allow-ssh"),
                   ("risk", JVal.str "Open to Internet"),
                   ("port", JVal.str "22")]] :=
  ⟨rfl,
   (nsg_high_risk_rules_characterization nsgWitnessRules nsgWitnessAnalysis rfl).1,
   rfl⟩

/-- Helper: the command list coming out of `run_az_command` is the input
list plus the `--subscription` pair (when the id is truthy) plus the
`--output json` pair (when `--output` was not already an element). -/
theorem run_az_command_fst (env : CliEnv) (cmd : List String) (sub : Option String) :
    (run_az_command env cmd sub).1 =
      (let c := match sub with
        | some s => if !(s = "") then cmd ++ ["--subscription", s] else cmd
        | none => cmd
       if !(c.contains "--output") then c ++ ["--output", "json"] else c) := by
  rcases sub with _ | s <;> simp only [run_az_command] <;> split_ifs <;> rfl

/-- C10: `run_az_command` extends the caller's `cmd` list in place with
`--subscription <id>` (when a non-empty id is provided) and with
`--output json` (when `--output` is not already an element); the
extensions persist, so feeding the returned list into a second call adds
a second `--subscription` pair (and no second `--output` pair); and the
function's return value is either the parsed JSON of the subprocess
stdout or `None`, never an exception. -/
theorem run_az_command_effects (env : CliEnv) (cmd : List String) (s : String) :
    (s ≠ "" →
      (run_az_command env cmd (some s)).1 =
        (let c := cmd ++ ["--subscription", s]
         if !(c.contains "--output") then c ++ ["--output", "json"] else c))
    ∧ ((run_az_command env cmd none).1 =
        (if !(cmd.contains "--output") then cmd ++ ["--output", "json"] else cmd))
    ∧ (s ≠ "" → s ≠ "--subscription" →
        countOcc
          (run_az_command env ((run_az_command env cmd (some s)).1) (some s)).1
          "--subscription" =
        countOcc cmd "--subscription" + 2)
    ∧ ((run_az_command env cmd (some s)).2 = none ∨
        ∃ v, (run_az_command env cmd (some s)).2 = some v
          ∧ env.parse env.out_text = some v) := by
  refine ⟨?_, ?_, ?_, ?_⟩
  · intro hs
    rw [run_az_command_fst]
    simp [hs]
  · rw [run_az_command_fst]
  · intro hs hsub
    by_cases hco : "--output" ∈ cmd <;> by_cases hos : "--output" = s <;>
      simp [run_az_command_fst, hs, hsub, hco, hos, countOcc, List.filter_append,
        List.filter_cons]
  · simp only [run_az_command]
    split_ifs <;>
      first
        | exact Or.inl rfl
        | (rcases hp : env.parse env.out_text with _ | v
           · exact Or.inl rfl
           · exact Or.inr ⟨v, rfl, rfl⟩)

/-- C10 witness: a concrete command list gains `--subscription mysub
--output json` on the first call and a second `--subscription mysub`
pair on the second call, and the successful subprocess run returns the
parsed JSON object. -/
theorem run_az_command_effects_witness :
    (run_az_command cliWitnessEnv cliWitnessCmd (some "mysub")).1 =
      ["az", "ml", "workspace", "show", "--subscription", "mysub", "--output", "json"]
    ∧ countOcc
        (run_az_command cliWitnessEnv
          ((run_az_command cliWitnessEnv cliWitnessCmd (some "mysub")).1)
          (some "mysub")).1 "--subscription" = 2
    ∧ (run_az_command cliWitnessEnv cliWitnessCmd (some "mysub")).2 = some (.obj []) :=
  ⟨(run_az_command_effects cliWitnessEnv cliWitnessCmd "mysub").1 (by decide),
   (run_az_command_effects cliWitnessEnv cliWitnessCmd "mysub").2.2.1
     (by decide) (by decide),
   rfl⟩

/-- C5: when prerequisite validation fails, `analyze()` returns that
failure envelope directly, the only sub-component invoked is the
prerequisite validator, the only progress step started is step 1, and
the results map stays empty (no workspace connection, network analysis,
resource discovery, security pass, or report generation). -/
theorem orchestrator_prereq_failure (env : OrchEnv)
    (h : env.prereq_result.success = false) :
    (connectivity_analyze env).result = env.prereq_result
    ∧ (connectivity_analyze env).calls = ["validate_prerequisites"]
    ∧ (connectivity_analyze env).steps.map (fun s => s.name) =
        ["Validating prerequisites"]
    ∧ (connectivity_analyze env).results = {} := by
  simp [connectivity_analyze, h, start_step, complete_step]

/-- C5 witness: a concrete run with the Azure-CLI-missing failure
envelope. -/
theorem orchestrator_prereq_failure_witness :
    (connectivity_analyze orchEnvPrereqFail).result = orchEnvPrereqFail.prereq_result
    ∧ (connectivity_analyze orchEnvPrereqFail).calls = ["validate_prerequisites"]
    ∧ (connectivity_analyze orchEnvPrereqFail).steps.map (fun s => s.name) =
        ["Validating prerequisites"]
    ∧ (connectivity_analyze orchEnvPrereqFail).results = {} :=
  orchestrator_prereq_failure orchEnvPrereqFail rfl

/-- C4: with prerequisites, workspace connection and resource discovery
succeeding and step-3 network analysis failing, the orchestrator records
the `error`/`partial_data` envelope under `results.network`, still runs
step 4 (so `results.connected_resources` holds the discovery payload),
and the overall `analyze()` returns a success envelope. -/
theorem orchestrator_network_failure (env : OrchEnv) (rd : List (String × JVal))
    (h1 : env.prereq_result.success = true)
    (h2 : env.workspace_result.success = true)
    (h3 : env.network_result.success = false)
    (h4 : env.resource_result.success = true)
    (h5 : env.resource_result.data = some (.obj rd)) :
    (connectivity_analyze env).results.network =
      some (.obj [("error", .str env.network_result.message),
                  ("partial_data", optJ env.network_result.data)])
    ∧ (connectivity_analyze env).results.connected_resources = some (.obj rd)
    ∧ "resource_discovery.analyze" ∈ (connectivity_analyze env).calls
    ∧ (connectivity_analyze env).result.success = true := by
  cases hr : env.report_outcome <;>
    simp [connectivity_analyze, orch_steps_4_to_6, h1, h2, h3, h4, h5, hr, optJ]

/-- C4 witness: a concrete run with a failing network stage. -/
theorem orchestrator_network_failure_witness :
    (connectivity_analyze orchEnvNetFail).results.network =
      some (.obj [("error", .str "Network analysis failed: boom"),
                  ("partial_data", .null)])
    ∧ (connectivity_analyze orchEnvNetFail).results.connected_resources =
        some (.obj [("total_resources", .num 2)])
    ∧ "resource_discovery.analyze" ∈ (connectivity_analyze orchEnvNetFail).calls
    ∧ (connectivity_analyze orchEnvNetFail).result.success = true :=
  orchestrator_network_failure orchEnvNetFail [("total_resources", .num 2)]
    rfl rfl rfl rfl rfl

/-- C7 evaluation: feeding two real orchestrator analysis outputs (one
with three private endpoints recorded under
`results.network.private_endpoints.count`, one with zero) into
`_compare_network_config` yields zero differences, because the function
reads `network_config.vnet_integration` / `network_config.private_endpoints`
— keys no orchestrator output contains.  On inputs in the key layout the
comparer expects, the same data yields exactly the one medium
`Private Endpoints` difference the claim describes. -/
theorem compare_network_config_on_orchestrator_outputs :
    (do
      let r ← pyGet orchOutputWs1 "results" .null
      let n ← pyGet r "network" .null
      let pe ← pyGet n "private_endpoints" .null
      pyGet pe "count" .null) = some (.num 3)
    ∧ (do
      let r ← pyGet orchOutputWs2 "results" .null
      let n ← pyGet r "network" .null
      let pe ← pyGet n "private_endpoints" .null
      pyGet pe "count" .null) = some (.num 0)
    ∧ compare_network_config orchOutputWs1 orchOutputWs2 = some []
    ∧ compare_network_config comparerExpectedShape3 comparerExpectedShape0 =
        some [{ category := "Private Endpoints", workspace1_value := .num 3,
                workspace2_value := .num 0, difference_type := "changed",
                severity := "medium",
                description := "Private endpoint count differs: 3 vs 0" }] :=
  ⟨rfl, rfl, rfl, rfl⟩
